import Mathlib

/-!
Verification of the probe-rs debugger session-configuration module
(`debugger/src/debugger/configuration.rs`).

The module is embedded shallowly:

* A filesystem path (`std::path::PathBuf`) is a flag saying whether the
  path is absolute plus its list of components.  `Path.push` follows the
  documented semantics of `PathBuf::push`: pushing an absolute path
  replaces the receiver, pushing a relative path appends its components.
* The process environment (directory-existence test, file-existence test
  and `std::env::current_dir`) is an explicit record `Env`; the Rust
  functions that query the OS take it as an argument.  `current_dir` is
  `Option Path`: `some` models `Ok`, `none` models `Err`.
* `validate_and_update_cwd` mutates `self.cwd` and may call
  `log::error!`; it is embedded as a function returning the updated
  `SessionConfig` together with the list of emitted log messages.
* `qualify_and_update_os_file_path` takes `&mut self` in Rust but never
  writes to `self`; it is embedded state-passing, returning the (always
  unchanged) configuration together with the `Result`.  Its body makes no
  OS call, so it also receives `Env` and ignores it, which lets the
  absence of filesystem access be stated as a theorem.
* `DebuggerError::Other(anyhow!(..))` is a constructor carrying the
  formatted message string.
-/

namespace Configuration

/-- A filesystem path: whether it is absolute, and its components. -/
structure Path where
  absolute : Bool
  components : List String
deriving DecidableEq, Repr

/-- Rust `Path::is_relative`. -/
def Path.is_relative (p : Path) : Bool := !p.absolute

/-- Rust `PathBuf::new()`: an empty relative path. -/
def PathBuf.new : Path := ⟨false, []⟩

/-- Rust `PathBuf::push`: an absolute argument replaces the whole path,
a relative argument extends it component-wise. -/
def Path.push (base p : Path) : Path :=
  if p.absolute then p else ⟨base.absolute, base.components ++ p.components⟩

/-- Rendering of a path for `{:?}` formatting. -/
def Path.debugFmt (p : Path) : String :=
  "\x22" ++ (if p.absolute then "/" else "") ++ String.intercalate "/" p.components ++ "\x22"

/-- Rendering of an `Option<PathBuf>` for `{:?}` formatting. -/
def optPathDebugFmt : Option Path → String
  | none => "None"
  | some p => "Some(" ++ p.debugFmt ++ ")"

/-- The process environment seen by the module: the two filesystem
queries the source makes (`Path::is_dir`, `std::env::current_dir`) plus a
file-existence query it could make but does not. -/
structure Env where
  is_dir : Path → Bool
  file_exists : Path → Bool
  current_dir : Option Path

/-- The `probe_rs::WireProtocol` enum (external collaborator). -/
inductive WireProtocol where
  | Swd
  | Jtag
deriving DecidableEq, Repr

/-- The `probe_rs::DebugProbeSelector` identifier (opaque here). -/
abbrev DebugProbeSelector := String

/-- The `probe_rs_cli_util::rtt::RttConfig` block (opaque here). -/
structure RttConfig where
deriving DecidableEq, Repr

/-- The `ConsoleLog` enum: level of information logged to the debugger
console. -/
inductive ConsoleLog where
  | Error
  | Warn
  | Info
  | Debug
  | Trace
deriving DecidableEq, Repr

/-- The `DebuggerError` type as used in this module: only the `Other`
variant, carrying the `anyhow!`-formatted message. -/
inductive DebuggerError where
  | Other (msg : String)
deriving DecidableEq, Repr

/-- Shared options for all session level configuration (`SessionConfig`). -/
structure SessionConfig where
  cwd : Option Path
  program_binary : Option Path
  svd_file : Option Path
  probe_selector : Option DebugProbeSelector
  core_index : Nat
  chip : Option String
  protocol : Option WireProtocol
  speed : Option Nat
  connect_under_reset : Bool
  allow_erase_all : Bool
  port : Option Nat
  flashing_enabled : Bool
  reset_after_flashing : Bool
  halt_after_reset : Bool
  full_chip_erase : Bool
  restore_unwritten_bytes : Bool
  console_log_level : Option ConsoleLog
  rtt : RttConfig
deriving DecidableEq, Repr

/-- The `Default` instance derived on `SessionConfig`. -/
def SessionConfig.default : SessionConfig where
  cwd := none
  program_binary := none
  svd_file := none
  probe_selector := none
  core_index := 0
  chip := none
  protocol := none
  speed := none
  connect_under_reset := false
  allow_erase_all := false
  port := none
  flashing_enabled := false
  reset_after_flashing := false
  halt_after_reset := false
  full_chip_erase := false
  restore_unwritten_bytes := false
  console_log_level := none
  rtt := {}

/-- The diagnostic emitted by `validate_and_update_cwd` when the current
directory cannot be used. -/
def cwdDiagnostic : String :=
  "Cannot use current working directory. Please check existence and permissions."

/-- Validate the new cwd, or else set it from the environment
(`SessionConfig::validate_and_update_cwd`).  Returns the updated
configuration and the list of `log::error!` messages emitted. -/
def SessionConfig.validate_and_update_cwd (self : SessionConfig) (env : Env)
    (new_cwd : Option Path) : SessionConfig × List String :=
  match new_cwd with
  | some temp_path =>
      if env.is_dir temp_path then
        ({ self with cwd := some temp_path }, [])
      else
        match env.current_dir with
        | some current_dir => ({ self with cwd := some current_dir }, [])
        | none => ({ self with cwd := none }, [cwdDiagnostic])
  | none =>
      match env.current_dir with
      | some current_dir => ({ self with cwd := some current_dir }, [])
      | none => ({ self with cwd := none }, [cwdDiagnostic])

/-- The error for a missing file argument, from
`qualify_and_update_os_file_path`: `anyhow!("Missing value for file.")`.
This is the spec's `MissingPath`. -/
def missingPathError : DebuggerError := DebuggerError.Other "Missing value for file."

/-- The error for an unusable working directory, from
`qualify_and_update_os_file_path`:
`anyhow!("Invalid value {:?} for `cwd`", self.cwd)`.  This is the spec's
`InvalidWorkingDirectory`; it carries the offending `cwd` value. -/
def invalidWorkingDirectoryError (cwd : Option Path) : DebuggerError :=
  DebuggerError.Other ("Invalid value " ++ optPathDebugFmt cwd ++ " for `cwd`")

/-- If the path to the program to be debugged is relative, we join it
with the cwd (`SessionConfig::qualify_and_update_os_file_path`).  The
Rust function takes `&mut self` but never writes to `self`; the embedding
returns the configuration alongside the result.  The body makes no call
into `env`. -/
def SessionConfig.qualify_and_update_os_file_path (self : SessionConfig) (env : Env)
    (os_file_to_validate : Option Path) : SessionConfig × Except DebuggerError Path :=
  match os_file_to_validate with
  | some temp_path =>
      let new_path := PathBuf.new
      if temp_path.is_relative then
        match self.cwd with
        | some cwd_path =>
            let new_path := new_path.push cwd_path
            (self, Except.ok (new_path.push temp_path))
        | none =>
            (self, Except.error (invalidWorkingDirectoryError self.cwd))
      else
        (self, Except.ok (new_path.push temp_path))
  | none => (self, Except.error missingPathError)

/-- The serde default for the `console_log_level` field
(`default_console_log`). -/
def default_console_log : Option ConsoleLog := some ConsoleLog.Error

/-- Serde field deserialization for `console_log_level`:
`#[serde(default = "default_console_log")]` fills an absent field from
`default_console_log`. -/
def deserializeConsoleLogLevel (field : Option (Option ConsoleLog)) : Option ConsoleLog :=
  field.getD default_console_log

/-- Rust `u8::to_ascii_lowercase`, applied per character: maps only the
ASCII letters `A`-`Z`. -/
def asciiLowerChar (c : Char) : Char :=
  if 65 ≤ c.toNat ∧ c.toNat ≤ 90 then Char.ofNat (c.toNat + 32) else c

/-- Rust `str::to_ascii_lowercase`: the lowering applied to every
character of the string. -/
def asciiLower (s : String) : String := ⟨s.data.map asciiLowerChar⟩

/-- The error message for an unrecognized log-level token, carrying the
offending text and the accepted tokens.  This is the spec's
`InvalidLogLevel`. -/
def invalidLogLevelMessage (s : String) : String :=
  "\x27" ++ s ++
    "\x27 is not a valid console log level. Choose from [error, warn, info, debug, or trace]."

/-- `<ConsoleLog as FromStr>::from_str`: match on the ASCII-lowercased
input.  Note the source maps the token `warn` to `ConsoleLog::Error`. -/
def ConsoleLog.from_str (s : String) : Except String ConsoleLog :=
  if asciiLower s = "error" then Except.ok ConsoleLog.Error
  else if asciiLower s = "warn" then Except.ok ConsoleLog.Error
  else if asciiLower s = "info" then Except.ok ConsoleLog.Info
  else if asciiLower s = "debug" then Except.ok ConsoleLog.Debug
  else if asciiLower s = "trace" then Except.ok ConsoleLog.Trace
  else Except.error (invalidLogLevelMessage s)

/-- Sample concrete values used by the witness theorems. -/
def samplePathRel : Path := ⟨false, ["target", "main.elf"]⟩

/-- Sample absolute path used by the witness theorems. -/
def samplePathAbs : Path := ⟨true, ["home", "user", "main.elf"]⟩

/-- Sample environment where every path is an existing directory and the
current directory is obtainable. -/
def sampleEnv : Env where
  is_dir := fun _ => true
  file_exists := fun _ => true
  current_dir := some ⟨true, ["proc"]⟩

/-- Sample environment where no path is an existing directory and the
current directory is unobtainable. -/
def sampleEnvBare : Env where
  is_dir := fun _ => false
  file_exists := fun _ => false
  current_dir := none

/-- Pushing onto `PathBuf::new()` yields the pushed path unchanged. -/
theorem pushOnEmpty (d : Path) : PathBuf.new.push d = d := by
  cases d with
  | mk a c => unfold PathBuf.new Path.push; cases a <;> simp

/-- C1: `ConsoleLog::from_str` is case-insensitive (it matches on the
ASCII-lowercased input) and recognizes exactly the five tokens `error`,
`warn`, `info`, `debug`, `trace`; `error` and `warn` both parse to
`Error` (the documented quirk), `info`, `debug`, `trace` parse to their
named levels, and any other input fails with the `InvalidLogLevel`
message carrying the offending text and the accepted tokens. -/
theorem from_str_token_map (s : String) :
    (ConsoleLog.from_str s = Except.ok ConsoleLog.Error ↔
      (asciiLower s = "error" ∨ asciiLower s = "warn"))
    ∧ (ConsoleLog.from_str s = Except.ok ConsoleLog.Info ↔ asciiLower s = "info")
    ∧ (ConsoleLog.from_str s = Except.ok ConsoleLog.Debug ↔ asciiLower s = "debug")
    ∧ (ConsoleLog.from_str s = Except.ok ConsoleLog.Trace ↔ asciiLower s = "trace")
    ∧ (asciiLower s ∉ (["error", "warn", "info", "debug", "trace"] : List String) →
        ConsoleLog.from_str s = Except.error (invalidLogLevelMessage s)) := by
  unfold ConsoleLog.from_str
  split_ifs with h1 h2 h3 h4 h5 <;> simp_all

/-- C1 witness: concrete evaluations of the parser through
`from_str_token_map`. -/
theorem from_str_token_map_witness :
    ConsoleLog.from_str "ERROR" = Except.ok ConsoleLog.Error
    ∧ ConsoleLog.from_str "warn" = Except.ok ConsoleLog.Error
    ∧ ConsoleLog.from_str "trace" = Except.ok ConsoleLog.Trace
    ∧ ConsoleLog.from_str "bogus" = Except.error (invalidLogLevelMessage "bogus") :=
  ⟨(from_str_token_map "ERROR").1.mpr (Or.inl (by decide)),
   (from_str_token_map "warn").1.mpr (Or.inr (by decide)),
   (from_str_token_map "trace").2.2.2.1.mpr (by decide),
   (from_str_token_map "bogus").2.2.2.2 (by decide)⟩

/-- C10: no input string parses to `ConsoleLog::Warn`: the token `warn`
yields `Error` and no other token maps to `Warn`, so the `Warn` variant
is unreachable through the parser. -/
theorem from_str_never_warn (s : String) :
    ConsoleLog.from_str s = Except.ok ConsoleLog.Warn ↔ False := by
  unfold ConsoleLog.from_str
  split_ifs <;> simp

/-- C2: path qualification fails in exactly two distinguishable ways:
input `None` fails with the missing-path error, and a relative input with
`cwd` unset fails with the invalid-working-directory error (which carries
the offending `cwd` value); in every other case it succeeds, and the two
errors are distinct values. -/
theorem qualify_error_cases (cfg : SessionConfig) (env : Env) (p : Path) :
    (cfg.qualify_and_update_os_file_path env none).2 = Except.error missingPathError
    ∧ (p.is_relative = true → cfg.cwd = none →
        (cfg.qualify_and_update_os_file_path env (some p)).2
          = Except.error (invalidWorkingDirectoryError none))
    ∧ ((p.is_relative = false ∨ cfg.cwd ≠ none) →
        ∃ q, (cfg.qualify_and_update_os_file_path env (some p)).2 = Except.ok q)
    ∧ missingPathError ≠ invalidWorkingDirectoryError none := by
  refine ⟨rfl, ?_, ?_, by decide⟩
  · intro hrel hcwd
    unfold SessionConfig.qualify_and_update_os_file_path
    simp [hrel, hcwd]
  · intro h
    unfold SessionConfig.qualify_and_update_os_file_path
    rcases h with h | h
    · simp [h]
    · cases hc : cfg.cwd with
      | none => exact absurd hc h
      | some d => by_cases hrel : p.is_relative <;> simp [hrel, hc]

/-- C2 witness: the two failure cases evaluated concretely through
`qualify_error_cases`. -/
theorem qualify_error_cases_witness :
    (SessionConfig.default.qualify_and_update_os_file_path sampleEnv none).2
      = Except.error missingPathError
    ∧ (SessionConfig.default.qualify_and_update_os_file_path sampleEnv
        (some samplePathRel)).2 = Except.error (invalidWorkingDirectoryError none) :=
  ⟨(qualify_error_cases SessionConfig.default sampleEnv samplePathRel).1,
   (qualify_error_cases SessionConfig.default sampleEnv samplePathRel).2.1 rfl rfl⟩

/-- C3: an absolute input path is returned unchanged by qualification,
whatever the configuration (in particular whether `cwd` is set or not)
and whatever the environment. -/
theorem qualify_absolute_unchanged (cfg : SessionConfig) (env : Env) (p : Path)
    (h : p.absolute = true) :
    (cfg.qualify_and_update_os_file_path env (some p)).2 = Except.ok p := by
  unfold SessionConfig.qualify_and_update_os_file_path
  simp [Path.is_relative, h, pushOnEmpty]

/-- C3 witness: a concrete absolute path through
`qualify_absolute_unchanged`, with `cwd` unset. -/
theorem qualify_absolute_unchanged_witness :
    samplePathAbs.absolute = true
    ∧ (SessionConfig.default.qualify_and_update_os_file_path sampleEnv
        (some samplePathAbs)).2 = Except.ok samplePathAbs :=
  ⟨rfl, qualify_absolute_unchanged SessionConfig.default sampleEnv samplePathAbs rfl⟩

/-- C4: a relative input path, when `cwd` is set to `d`, qualifies to the
purely syntactic join of `d` with the path (`PathBuf::push` semantics). -/
theorem qualify_relative_joins_cwd (cfg : SessionConfig) (env : Env) (p d : Path)
    (hrel : p.is_relative = true) (hcwd : cfg.cwd = some d) :
    (cfg.qualify_and_update_os_file_path env (some p)).2 = Except.ok (d.push p) := by
  unfold SessionConfig.qualify_and_update_os_file_path
  simp [hrel, hcwd, pushOnEmpty]

/-- C4 witness: a concrete relative path joined to a concrete `cwd`
through `qualify_relative_joins_cwd`. -/
theorem qualify_relative_joins_cwd_witness :
    samplePathRel.is_relative = true
    ∧ ({ SessionConfig.default with cwd := some samplePathAbs
        }.qualify_and_update_os_file_path sampleEnv (some samplePathRel)).2
      = Except.ok (samplePathAbs.push samplePathRel) :=
  ⟨rfl, qualify_relative_joins_cwd { SessionConfig.default with cwd := some samplePathAbs }
    sampleEnv samplePathRel samplePathAbs rfl rfl⟩

/-- C5: when the requested working directory is an existing directory in
the environment, `validate_and_update_cwd` adopts it verbatim. -/
theorem validate_adopts_existing_dir (cfg : SessionConfig) (env : Env) (d : Path)
    (h : env.is_dir d = true) :
    (cfg.validate_and_update_cwd env (some d)).1.cwd = some d
    ∧ (cfg.validate_and_update_cwd env (some d)).2 = [] := by
  unfold SessionConfig.validate_and_update_cwd
  simp [h]

/-- C5 witness: a concrete existing directory adopted verbatim through
`validate_adopts_existing_dir`. -/
theorem validate_adopts_existing_dir_witness :
    sampleEnv.is_dir samplePathAbs = true
    ∧ (SessionConfig.default.validate_and_update_cwd sampleEnv
        (some samplePathAbs)).1.cwd = some samplePathAbs :=
  ⟨rfl, (validate_adopts_existing_dir SessionConfig.default sampleEnv samplePathAbs rfl).1⟩

/-- C6: when the requested working directory is absent or not an existing
directory, `validate_and_update_cwd` falls back to the process current
directory when obtainable; when that too is unobtainable it sets `cwd` to
unset and emits exactly the diagnostic.  The function returns no error in
either case (its type has no error component): a soft failure. -/
theorem validate_fallback (cfg : SessionConfig) (env : Env) (new_cwd : Option Path)
    (h : ∀ d, new_cwd = some d → env.is_dir d = false) :
    (∀ c, env.current_dir = some c →
        (cfg.validate_and_update_cwd env new_cwd).1.cwd = some c
        ∧ (cfg.validate_and_update_cwd env new_cwd).2 = [])
    ∧ (env.current_dir = none →
        (cfg.validate_and_update_cwd env new_cwd).1.cwd = none
        ∧ (cfg.validate_and_update_cwd env new_cwd).2 = [cwdDiagnostic]) := by
  cases new_cwd with
  | none =>
      unfold SessionConfig.validate_and_update_cwd
      cases hcd : env.current_dir <;> simp [hcd]
  | some d =>
      have hd := h d rfl
      unfold SessionConfig.validate_and_update_cwd
      cases hcd : env.current_dir <;> simp [hd, hcd]

/-- C6 witness: with no existing directory and no obtainable current
directory, `cwd` becomes unset and the diagnostic is emitted, through
`validate_fallback`. -/
theorem validate_fallback_witness :
    (SessionConfig.default.validate_and_update_cwd sampleEnvBare
        (some samplePathRel)).1.cwd = none
    ∧ (SessionConfig.default.validate_and_update_cwd sampleEnvBare
        (some samplePathRel)).2 = [cwdDiagnostic] :=
  (validate_fallback SessionConfig.default sampleEnvBare (some samplePathRel)
    (fun _ _ => rfl)).2 rfl

/-- C7: path qualification is a frame-preserving pure function: it
returns the configuration with every field unchanged (on success and on
error), its whole result is independent of the environment (it makes no
filesystem query: no existence check, no symlink resolution), and its
result component depends only on the input path and the current `cwd`. -/
theorem qualify_frame_and_pure (cfg cfg₂ : SessionConfig) (env env₂ : Env)
    (p : Option Path) :
    (cfg.qualify_and_update_os_file_path env p).1 = cfg
    ∧ cfg.qualify_and_update_os_file_path env p
        = cfg.qualify_and_update_os_file_path env₂ p
    ∧ (cfg.cwd = cfg₂.cwd →
        (cfg.qualify_and_update_os_file_path env p).2
          = (cfg₂.qualify_and_update_os_file_path env₂ p).2) := by
  refine ⟨?_, rfl, ?_⟩
  · unfold SessionConfig.qualify_and_update_os_file_path
    cases p with
    | none => rfl
    | some q =>
        by_cases hq : q.is_relative <;> cases hc : cfg.cwd <;> simp [hq, hc]
  · intro h
    unfold SessionConfig.qualify_and_update_os_file_path
    rw [h]
    cases p with
    | none => rfl
    | some q =>
        by_cases hq : q.is_relative <;> cases hc : cfg₂.cwd <;> simp [hq, hc]

/-- C7 witness: frame preservation and `cwd`-only dependence evaluated at
concrete values through `qualify_frame_and_pure`. -/
theorem qualify_frame_and_pure_witness :
    (SessionConfig.default.qualify_and_update_os_file_path sampleEnv
        (some samplePathRel)).1 = SessionConfig.default
    ∧ (SessionConfig.default.qualify_and_update_os_file_path sampleEnv
          (some samplePathRel)).2
        = ({ SessionConfig.default with core_index := 7
            }.qualify_and_update_os_file_path sampleEnvBare (some samplePathRel)).2 :=
  ⟨(qualify_frame_and_pure SessionConfig.default SessionConfig.default sampleEnv
      sampleEnv (some samplePathRel)).1,
   (qualify_frame_and_pure SessionConfig.default
      { SessionConfig.default with core_index := 7 } sampleEnv sampleEnvBare
      (some samplePathRel)).2.2 rfl⟩

/-- C8: when the `console_log_level` field is not supplied, serde fills
it from `default_console_log`, which is `Error`. -/
theorem console_log_level_default :
    deserializeConsoleLogLevel none = some ConsoleLog.Error
    ∧ default_console_log = some ConsoleLog.Error :=
  ⟨rfl, rfl⟩

/-- C9: `validate_and_update_cwd` is idempotent: running it a second time
with the same input and environment changes nothing, and more generally
the resulting `cwd` does not depend on the configuration it starts from
(in particular not on the `cwd` left by a first call). -/
theorem validate_idempotent (cfg : SessionConfig) (env : Env) (new_cwd : Option Path) :
    (cfg.validate_and_update_cwd env new_cwd).1.validate_and_update_cwd env new_cwd
      = cfg.validate_and_update_cwd env new_cwd
    ∧ ∀ cfg₂ : SessionConfig,
        (cfg₂.validate_and_update_cwd env new_cwd).1.cwd
          = (cfg.validate_and_update_cwd env new_cwd).1.cwd := by
  constructor
  · cases new_cwd with
    | none =>
        cases hcd : env.current_dir <;>
          simp [SessionConfig.validate_and_update_cwd, hcd]
    | some d =>
        cases hd : env.is_dir d <;> cases hcd : env.current_dir <;>
          simp [SessionConfig.validate_and_update_cwd, hd, hcd]
  · intro cfg₂
    cases new_cwd with
    | none =>
        cases hcd : env.current_dir <;>
          simp [SessionConfig.validate_and_update_cwd, hcd]
    | some d =>
        cases hd : env.is_dir d <;> cases hcd : env.current_dir <;>
          simp [SessionConfig.validate_and_update_cwd, hd, hcd]

end Configuration
